import Mathlib

/-!
Verification development for the ai_trading_bot trading core
(src/ai_advisor.rs and src/trade_limiter.rs).

Modelling conventions:
* `rust_decimal::Decimal` values are modelled as `ℚ`.  All arithmetic the
  claims exercise (add, sub, mul, div, min, max, comparisons) is exact on the
  inputs involved, and both the source and the specification use the same
  operations, so the rational model is faithful for the properties below.
* Rust `String`/`&str` values handed to the parser are modelled as `List Char`
  (Unicode scalar values).  `str::to_uppercase` is modelled character-wise by
  `rustCharToUpper`; this is exact whenever every character's uppercase form
  is a single character of the same UTF-8 width (in particular on ASCII).
  The length-changing special cases of the real Unicode mapping are modelled
  separately, byte-accurately, by the `*_bytes` definitions further down,
  which expose the panic the robustness claim is about.
* The trade limiter reads the wall clock (`Utc::now`).  The clock is made an
  explicit parameter: `today` stands for `today_string()` and `tomorrow` for
  `next_trading_day()`.  File persistence (`load_state`/`save_state`) only
  logs on failure and never changes the in-memory state transition, so it is
  dropped from the state model.
-/

/-- Convert a Lean string literal to the `List Char` representation used by
the parser model. -/
def str (s : String) : List Char := s.toList

/-- Character-wise model of `str::to_uppercase` for the length-preserving
case: ASCII lowercase letters map to their uppercase form, every other
character is left unchanged. -/
def rustCharToUpper (c : Char) : Char :=
  if 'a' ≤ c ∧ c ≤ 'z' then Char.ofNat (c.toNat - 32) else c

/-- `text.to_uppercase()` in the character-wise model. -/
def rustToUpper (s : List Char) : List Char := s.map rustCharToUpper

/-- Whether `needle` is an initial segment of `hay`. -/
def listStartsWith : List Char → List Char → Bool
  | _, [] => true
  | [], _ :: _ => false
  | c :: cs, d :: ds => c = d && listStartsWith cs ds

/-- Position (in characters) of the first occurrence of `needle` in `hay`,
as `str::find` returns it; `none` when there is no occurrence. -/
def findPos (hay needle : List Char) : Option Nat :=
  if listStartsWith hay needle then some 0
  else
    match hay with
    | [] => none
    | _ :: rest => (findPos rest needle).map (· + 1)

/-- `str::contains` for the substring `needle`. -/
def containsSub (hay needle : List Char) : Bool := (findPos hay needle).isSome

/-- Numeric value of a string of decimal digits (most significant first). -/
def digitsToNat (s : List Char) : Nat :=
  s.foldl (fun a c => 10 * a + (c.toNat - 48)) 0

/-- Model of `rust_decimal::Decimal::from_str` restricted to the strings the
parser ever produces (digits and decimal points, commas already stripped):
at most one decimal point and at least one digit, otherwise the parse fails. -/
def parseDecimal (s : List Char) : Option ℚ :=
  let intPart := s.takeWhile (· ≠ '.')
  match s.dropWhile (· ≠ '.') with
  | [] =>
      if s ≠ [] ∧ s.all Char.isDigit then some ((digitsToNat intPart : ℕ) : ℚ)
      else none
  | _ :: fracPart =>
      if intPart.all Char.isDigit ∧ fracPart.all Char.isDigit ∧
          (intPart ≠ [] ∨ fracPart ≠ []) then
        some (((digitsToNat intPart : ℕ) : ℚ) +
          ((digitsToNat fracPart : ℕ) : ℚ) / 10 ^ fracPart.length)
      else none

/-- The trading recommendation enum of `ai_advisor.rs`. -/
inductive TradingRecommendation where
  | strongBuy
  | buy
  | hold
  | sell
  | strongSell
deriving DecidableEq

/-- `Display` rendering of a recommendation, as in `ai_advisor.rs`. -/
def recToString : TradingRecommendation → List Char
  | .strongBuy => str "STRONG BUY"
  | .buy => str "BUY"
  | .hold => str "HOLD"
  | .sell => str "SELL"
  | .strongSell => str "STRONG SELL"

/-- The `MarketContext` struct of `ai_advisor.rs` (the spec's
MarketSnapshot). -/
structure MarketContext where
  symbol : String
  current_price : ℚ
  high_24h : ℚ
  low_24h : ℚ
  price_change_24h_percent : ℚ
  sma_short : Option ℚ
  sma_long : Option ℚ
  rsi : Option ℚ
  volume_24h : Option ℚ
  position_entry_price : Option ℚ
  account_balance : ℚ
  hourly_data_summary : Option String
  high_12h : Option ℚ
  low_12h : Option ℚ
  high_48h : Option ℚ
  low_48h : Option ℚ
deriving DecidableEq

/-- The `AiTradingTargets` struct of `ai_advisor.rs` (the spec's
TradingTargets). -/
structure AiTradingTargets where
  stop_loss_price : ℚ
  take_profit_price : ℚ
  buy_target_price : Option ℚ
  sell_target_price : Option ℚ
  confidence : ℚ
  reasoning : List Char
  recommendation : TradingRecommendation
  support : Option ℚ
  strong_support : Option ℚ
  resistance : Option ℚ
  strong_resistance : Option ℚ
  pivot_point : Option ℚ
deriving DecidableEq

/-- `OllamaClient::extract_price` (char-wise string model): find the first
case-insensitive occurrence of `label`, skip characters that are neither
digits nor a decimal point, collect digits, decimal points and
thousands-separator commas, strip the commas and parse the result. -/
def extract_price (text label : List Char) : Option ℚ :=
  let text_upper := rustToUpper text
  let label_upper := rustToUpper label
  match findPos text_upper label_upper with
  | none => none
  | some pos =>
      let after_label := text.drop (pos + label.length)
      let number_str :=
        ((after_label.dropWhile (fun c => ¬ c.isDigit ∧ c ≠ '.')).takeWhile
          (fun c => c.isDigit ∨ c = '.' ∨ c = ',')).filter (· ≠ ',')
      if number_str ≠ [] then parseDecimal number_str else none

/-- `OllamaClient::extract_percentage`: like `extract_price` but skipping
only non-digits and collecting digits and decimal points. -/
def extract_percentage (text label : List Char) : Option ℚ :=
  let text_upper := rustToUpper text
  let label_upper := rustToUpper label
  match findPos text_upper label_upper with
  | none => none
  | some pos =>
      let after_label := text.drop (pos + label.length)
      let number_str :=
        (after_label.dropWhile (fun c => ¬ c.isDigit)).takeWhile
          (fun c => c.isDigit ∨ c = '.')
      if number_str ≠ [] then parseDecimal number_str else none

/-- Strip leading and trailing whitespace, as `str::trim`. -/
def trimChars (s : List Char) : List Char :=
  ((s.dropWhile Char.isWhitespace).reverse.dropWhile Char.isWhitespace).reverse

/-- `OllamaClient::extract_reasoning`: the rest of the line after the first
occurrence of "REASONING:", trimmed; `none` when absent or empty.
`str::lines` splits at a line feed and drops a trailing carriage return. -/
def extract_reasoning (text : List Char) : Option (List Char) :=
  let text_upper := rustToUpper text
  match findPos text_upper (str "REASONING:") with
  | none => none
  | some pos =>
      let after_label := text.drop (pos + 10)
      let line := after_label.takeWhile (· ≠ '\n')
      let line := if line.getLast? = some '\r' then line.dropLast else line
      let reasoning := trimChars line
      if reasoning ≠ [] then some reasoning else none

/-- `OllamaClient::parse_ai_response`: classify the recommendation by
priority scanning of the upper-cased text, then extract each labelled field,
applying the documented defaults.  The Rust function returns
`Result<AiTradingTargets>` but its body has no error path (`Ok` is the only
return), so the model is total. -/
def parse_ai_response (response : List Char) (context : MarketContext) :
    AiTradingTargets :=
  let response_upper := rustToUpper response
  let recommendation :=
    if containsSub response_upper (str "STRONG_BUY") ||
        containsSub response_upper (str "STRONG BUY") then
      TradingRecommendation.strongBuy
    else if containsSub response_upper (str "STRONG_SELL") ||
        containsSub response_upper (str "STRONG SELL") then
      TradingRecommendation.strongSell
    else if containsSub response_upper (str "RECOMMENDATION: BUY") ||
        containsSub response_upper (str "RECOMMENDATION:BUY") then
      TradingRecommendation.buy
    else if containsSub response_upper (str "RECOMMENDATION: SELL") ||
        containsSub response_upper (str "RECOMMENDATION:SELL") then
      TradingRecommendation.sell
    else
      TradingRecommendation.hold
  let confidence :=
    match extract_percentage response (str "CONFIDENCE") with
    | some v => v
    | none => 50
  let stop_loss :=
    match extract_price response (str "STOP_LOSS") with
    | some v => v
    | none =>
        match extract_price response (str "STOP LOSS") with
        | some v => v
        | none => context.current_price * (0.95 : ℚ)
  let take_profit :=
    match extract_price response (str "TAKE_PROFIT") with
    | some v => v
    | none =>
        match extract_price response (str "TAKE PROFIT") with
        | some v => v
        | none => context.current_price * (1.10 : ℚ)
  let buy_target :=
    match extract_price response (str "BUY_TARGET") with
    | some v => some v
    | none => extract_price response (str "BUY TARGET")
  let sell_target :=
    match extract_price response (str "SELL_TARGET") with
    | some v => some v
    | none => extract_price response (str "SELL TARGET")
  let support := extract_price response (str "SUPPORT:")
  let strong_support :=
    match extract_price response (str "STRONG_SUPPORT") with
    | some v => some v
    | none => extract_price response (str "STRONG SUPPORT")
  let resistance := extract_price response (str "RESISTANCE:")
  let strong_resistance :=
    match extract_price response (str "STRONG_RESISTANCE") with
    | some v => some v
    | none => extract_price response (str "STRONG RESISTANCE")
  let pivot := extract_price response (str "PIVOT")
  let reasoning :=
    match extract_reasoning response with
    | some r => r
    | none => str "AI analysis completed"
  { stop_loss_price := stop_loss
    take_profit_price := take_profit
    buy_target_price := buy_target
    sell_target_price := sell_target
    confidence := confidence
    reasoning := reasoning
    recommendation := recommendation
    support := support
    strong_support := strong_support
    resistance := resistance
    strong_resistance := strong_resistance
    pivot_point := pivot }

/-! ### Byte-accurate model of `extract_price`

Rust's `str::find` returns a byte index and `to_uppercase` applies the full
Unicode mapping, which may change a string's byte length; `extract_price`
then slices the *original* string at the index found in the *upper-cased*
string.  The definitions below model that byte arithmetic exactly, to settle
the totality claim. -/

/-- UTF-8 encoded length of a character, in bytes. -/
def utf8Len (c : Char) : Nat :=
  if c.toNat < 0x80 then 1
  else if c.toNat < 0x800 then 2
  else if c.toNat < 0x10000 then 3
  else 4

/-- Byte length of a string. -/
def byteLenL (s : List Char) : Nat := (s.map utf8Len).sum

/-- The full `char::to_uppercase` mapping, restricted to the characters
exercised here: ASCII letters map one-to-one, and U+0149 (LATIN SMALL LETTER
N PRECEDED BY APOSTROPHE) is one of Unicode's length-changing special cases,
mapping to the two characters U+02BC, U+004E (3 UTF-8 bytes instead of 2). -/
def rustCharToUpperFull (c : Char) : List Char :=
  if c = Char.ofNat 0x0149 then [Char.ofNat 0x02BC, 'N']
  else [rustCharToUpper c]

/-- `str::to_uppercase` under the full mapping. -/
def rustToUpperFull (s : List Char) : List Char := s.flatMap rustCharToUpperFull

/-- Byte offset of the first occurrence of `needle`, as `str::find` returns
it.  Matching character-aligned occurrences is equivalent to Rust's
byte-level search here because the needles are ASCII and UTF-8 never embeds
ASCII bytes inside a multi-byte sequence. -/
def findBytePos (hay needle : List Char) : Option Nat :=
  if listStartsWith hay needle then some 0
  else
    match hay with
    | [] => none
    | c :: rest => (findBytePos rest needle).map (· + utf8Len c)

/-- The suffix of `s` starting at byte offset `k`, i.e. `&s[k..]`; `none`
when Rust would panic because `k` is past the end of the string or not on a
character boundary. -/
def byteSuffix : List Char → Nat → Option (List Char)
  | s, 0 => some s
  | [], _ + 1 => none
  | c :: rest, k + 1 =>
      if utf8Len c ≤ k + 1 then byteSuffix rest (k + 1 - utf8Len c) else none

/-- Byte-accurate `OllamaClient::extract_price`: the outer `Option` is
`none` exactly when the Rust code panics on the slice
`&text[pos + label.len()..]`. -/
def extract_price_bytes (text label : List Char) :
    Option (Option ℚ) :=
  let text_upper := rustToUpperFull text
  let label_upper := rustToUpperFull label
  match findBytePos text_upper label_upper with
  | none => some none
  | some pos =>
      match byteSuffix text (pos + byteLenL label) with
      | none => none
      | some after_label =>
          let number_str :=
            ((after_label.dropWhile (fun c => ¬ c.isDigit ∧ c ≠ '.')).takeWhile
              (fun c => c.isDigit ∨ c = '.' ∨ c = ',')).filter (· ≠ ',')
          some (if number_str ≠ [] then parseDecimal number_str else none)

/-! ### FallbackTargetCalculator -/

/-- RSI block of `FallbackTargetCalculator::determine_recommendation`:
the score contribution added when `rsi` is present. -/
def rsi_score (rsi : Option ℚ) : Int :=
  match rsi with
  | none => 0
  | some r =>
      if r < 30 then 2
      else if r < 40 then 1
      else if r > 70 then -2
      else if r > 60 then -1
      else 0

/-- Factor count contributed by the RSI block: one when `rsi` is present. -/
def rsi_factor (rsi : Option ℚ) : Nat := if rsi.isSome then 1 else 0

/-- SMA crossover block of `determine_recommendation`: score contribution
when both moving averages are present. -/
def sma_score (sma_short sma_long : Option ℚ) : Int :=
  match sma_short, sma_long with
  | some short, some long =>
      if short > long then (if short > long * (1.02 : ℚ) then 2 else 1)
      else (if short < long * (0.98 : ℚ) then -2 else -1)
  | _, _ => 0

/-- Factor count contributed by the SMA block. -/
def sma_factor (sma_short sma_long : Option ℚ) : Nat :=
  match sma_short, sma_long with
  | some _, some _ => 1
  | _, _ => 0

/-- 24h momentum block of `determine_recommendation`; its factor always
counts. -/
def momentum_score (change : ℚ) : Int :=
  if change > 5 then 1 else if change < -5 then -1 else 0

/-- `FallbackTargetCalculator::determine_recommendation`: signed score over
the three indicator blocks, confidence from the alignment of factors,
recommendation from fixed thresholds on the score. -/
def determine_recommendation (ctx : MarketContext) :
    TradingRecommendation × ℚ :=
  let score : Int := rsi_score ctx.rsi + sma_score ctx.sma_short ctx.sma_long +
    momentum_score ctx.price_change_24h_percent
  let factors : Nat := rsi_factor ctx.rsi +
    sma_factor ctx.sma_short ctx.sma_long + 1
  let max_score := factors * 2
  let confidence : ℚ :=
    if 0 < max_score then
      min (((score.natAbs : ℕ) : ℚ) / ((max_score : ℕ) : ℚ) * 100) 90
    else 50
  let recommendation :=
    if 3 ≤ score then TradingRecommendation.strongBuy
    else if 1 ≤ score then TradingRecommendation.buy
    else if score ≤ -3 then TradingRecommendation.strongSell
    else if score ≤ -1 then TradingRecommendation.sell
    else TradingRecommendation.hold
  (recommendation, max confidence 30)

/-- `FallbackTargetCalculator::generate_reasoning`: collect the clauses of
the indicator blocks that fired, joined by "; ", with a generic sentence
when none did. -/
def generate_reasoning (ctx : MarketContext) (rec : TradingRecommendation) :
    List Char :=
  let r1 : List (List Char) :=
    match ctx.rsi with
    | some r =>
        if r < 30 then [str "RSI indicates oversold conditions"]
        else if r > 70 then [str "RSI indicates overbought conditions"]
        else []
    | none => []
  let r2 : List (List Char) :=
    match ctx.sma_short, ctx.sma_long with
    | some short, some long =>
        if short > long then [str "SMA shows bullish trend"]
        else [str "SMA shows bearish trend"]
    | _, _ => []
  let r3 : List (List Char) :=
    if ctx.price_change_24h_percent > 5 then
      [str "Strong upward momentum in 24h"]
    else if ctx.price_change_24h_percent < -5 then
      [str "Strong downward momentum in 24h"]
    else []
  let reasons := r1 ++ r2 ++ r3
  if reasons = [] then recToString rec ++ str " recommendation based on mixed signals"
  else (str "; ").intercalate reasons

/-- `FallbackTargetCalculator::calculate_targets`, translated line by line
from `ai_advisor.rs` (pivot points over the widest available window,
volatility-adaptive stop/take-profit from the 24h range, targets bounded
around the current price). -/
def calculate_targets (context : MarketContext) : AiTradingTargets :=
  let current := context.current_price
  let high := context.high_48h.getD context.high_24h
  let low := context.low_48h.getD context.low_24h
  let pivot := (high + low + current) / 3
  let range := high - low
  let resistance := 2 * pivot - low
  let strong_resistance := pivot + range
  let support := 2 * pivot - high
  let strong_support := pivot - range
  let range_24h := context.high_24h - context.low_24h
  let volatility_percent : ℚ :=
    if current > 0 then range_24h / current * 100 else 3
  let stop_loss_percent := max (min (volatility_percent / 2) 5) 2
  let stop_loss := current * (1 - stop_loss_percent / 100)
  let take_profit_percent := stop_loss_percent * 2
  let take_profit := current * (1 + take_profit_percent / 100)
  let rc := determine_recommendation context
  let buy_target := some (max support (current * (0.97 : ℚ)))
  let sell_target := some (min resistance (current * (1.05 : ℚ)))
  let reasoning := generate_reasoning context rc.1
  { stop_loss_price := stop_loss
    take_profit_price := take_profit
    buy_target_price := buy_target
    sell_target_price := sell_target
    confidence := rc.2
    reasoning := reasoning
    recommendation := rc.1
    support := some support
    strong_support := some strong_support
    resistance := some resistance
    strong_resistance := some strong_resistance
    pivot_point := some pivot }

/-! ### Reference formulas of spec section 4.2

`specFallbackClaim` renders the claim's words literally (the volatility
default applies only when `current = 0`); `specFallbackAmended` differs in
exactly one place: the default applies whenever `current` is not positive,
matching the source's `current > Decimal::ZERO` guard. -/

/-- clamp(x, min=lo, max=hi) as the spec words it. -/
def clampQ (lo hi x : ℚ) : ℚ := max lo (min hi x)

/-- The nine price outputs named by the reference formulas of spec 4.2. -/
structure SpecFallbackPrices where
  pivot : ℚ
  resistance : ℚ
  strong_resistance : ℚ
  support : ℚ
  strong_support : ℚ
  stop_loss : ℚ
  take_profit : ℚ
  buy_target : ℚ
  sell_target : ℚ
deriving DecidableEq

/-- Modelled from the claim's words for C3: pivot-point formulas over the
48h window when present (else 24h), volatility from the 24h range with the
default 3 exactly when `current = 0`, clamped stop-loss, doubled
take-profit, and buy/sell targets bounded around the current price. -/
def specFallbackClaim (ctx : MarketContext) : SpecFallbackPrices :=
  let high := ctx.high_48h.getD ctx.high_24h
  let low := ctx.low_48h.getD ctx.low_24h
  let current := ctx.current_price
  let pivot := (high + low + current) / 3
  let volatility_pct : ℚ :=
    if current = 0 then 3 else (ctx.high_24h - ctx.low_24h) / current * 100
  let stop_loss_pct := clampQ 2 5 (volatility_pct / 2)
  { pivot := pivot
    resistance := 2 * pivot - low
    strong_resistance := pivot + (high - low)
    support := 2 * pivot - high
    strong_support := pivot - (high - low)
    stop_loss := current * (1 - stop_loss_pct / 100)
    take_profit := current * (1 + 2 * stop_loss_pct / 100)
    buy_target := max (2 * pivot - high) (current * (0.97 : ℚ))
    sell_target := min (2 * pivot - low) (current * (1.05 : ℚ)) }

/-- The amended reference formulas: identical to `specFallbackClaim` except
that the volatility default 3 applies whenever `current ≤ 0` (the source
guards with `current > 0`), not only at `current = 0`. -/
def specFallbackAmended (ctx : MarketContext) : SpecFallbackPrices :=
  let high := ctx.high_48h.getD ctx.high_24h
  let low := ctx.low_48h.getD ctx.low_24h
  let current := ctx.current_price
  let pivot := (high + low + current) / 3
  let volatility_pct : ℚ :=
    if 0 < current then (ctx.high_24h - ctx.low_24h) / current * 100 else 3
  let stop_loss_pct := clampQ 2 5 (volatility_pct / 2)
  { pivot := pivot
    resistance := 2 * pivot - low
    strong_resistance := pivot + (high - low)
    support := 2 * pivot - high
    strong_support := pivot - (high - low)
    stop_loss := current * (1 - stop_loss_pct / 100)
    take_profit := current * (1 + 2 * stop_loss_pct / 100)
    buy_target := max (2 * pivot - high) (current * (0.97 : ℚ))
    sell_target := min (2 * pivot - low) (current * (1.05 : ℚ)) }

/-- Modelled from the claim's words for C7: the claimed RSI contribution
with inclusive decade ranges. -/
def rsiContribClaim (r : ℚ) : Int :=
  if r < 30 then 2
  else if 30 ≤ r ∧ r ≤ 39 then 1
  else if r > 70 then -2
  else if 60 ≤ r ∧ r ≤ 70 then -1
  else 0

/-- The amended RSI contribution: half-open ranges matching the source's
cascading comparisons (`30 ≤ r < 40` and `60 < r ≤ 70`). -/
def rsiContribAmended (r : ℚ) : Int :=
  if r < 30 then 2
  else if 30 ≤ r ∧ r < 40 then 1
  else if r > 70 then -2
  else if 60 < r ∧ r ≤ 70 then -1
  else 0

/-! ### TradeLimiter (trade_limiter.rs)

The wall clock is an explicit parameter (`today` = `today_string()`,
`tomorrow` = `next_trading_day()`); timestamps are opaque naturals. -/

/-- The `TradeRecord` struct of `trade_limiter.rs`. -/
structure TradeRecord where
  timestamp : ℕ
  symbol : String
  side : String
  price : ℚ
  quantity : ℚ
  is_first_trade : Bool
deriving DecidableEq

/-- The `DailyTradingState` struct of `trade_limiter.rs`. -/
structure DailyTradingState where
  date : String
  trades_today : List TradeRecord
  first_trade_executed : Bool
  second_trade_executed : Bool
  daily_pnl : ℚ
deriving DecidableEq

/-- `DailyTradingState::new_for_today`, with today's date string made
explicit. -/
def new_for_today (today : String) : DailyTradingState :=
  { date := today
    trades_today := []
    first_trade_executed := false
    second_trade_executed := false
    daily_pnl := 0 }

/-- The `TradeLimiter` struct: state file path, in-memory daily state, and
the maximum trades per day (2, set in `TradeLimiter::new`). -/
structure TradeLimiter where
  state_file : String
  current_state : DailyTradingState
  max_trades_per_day : ℕ
deriving DecidableEq

/-- `TradeLimiter::new` on a day with no (or stale) persisted state: a fresh
state for today with the cap fixed at 2. -/
def mkLimiter (state_file today : String) : TradeLimiter :=
  { state_file := state_file
    current_state := new_for_today today
    max_trades_per_day := 2 }

/-- The `TradePermission` enum of `trade_limiter.rs`. -/
inductive TradePermission where
  | allowed (is_first_trade : Bool) (trades_remaining : ℕ)
  | dailyLimitReached (trades_executed : ℕ) (next_trading_day : String)
deriving DecidableEq

/-- `TradeLimiter::can_trade`: a stale date reads as a fresh day; otherwise
compare today's trade count to the cap. -/
def can_trade (L : TradeLimiter) (today tomorrow : String) : TradePermission :=
  if L.current_state.date ≠ today then .allowed true 2
  else
    let trades_count := L.current_state.trades_today.length
    if L.max_trades_per_day ≤ trades_count then
      .dailyLimitReached trades_count tomorrow
    else if trades_count = 0 then .allowed true 2
    else .allowed false 1

/-- `TradeLimiter::record_trade`: reset on a stale date, append the new
record (first-trade flag from emptiness before the append), update the two
executed flags.  The Rust function returns `anyhow::Result<()>` but its body
unconditionally ends in `Ok(())` (persistence failures are only logged), so
the model is total. -/
def record_trade (L : TradeLimiter) (today symbol side : String)
    (price quantity : ℚ) (timestamp : ℕ) : TradeLimiter :=
  let st := if L.current_state.date ≠ today then new_for_today today
    else L.current_state
  let is_first := st.trades_today.isEmpty
  let record : TradeRecord :=
    { timestamp := timestamp
      symbol := symbol
      side := side
      price := price
      quantity := quantity
      is_first_trade := is_first }
  let st2 : DailyTradingState :=
    { st with
      trades_today := st.trades_today ++ [record]
      first_trade_executed := if is_first then true else st.first_trade_executed
      second_trade_executed := if is_first then st.second_trade_executed else true }
  { L with current_state := st2 }

/-- `TradeLimiter::update_pnl`: overwrite the day's P&L. -/
def update_pnl (L : TradeLimiter) (pnl : ℚ) : TradeLimiter :=
  { L with current_state := { L.current_state with daily_pnl := pnl } }

/-- One same-day call against the limiter: either a trade is recorded or the
P&L is overwritten. -/
inductive LimiterOp where
  | record (symbol side : String) (price quantity : ℚ) (timestamp : ℕ)
  | setPnl (pnl : ℚ)

/-- Apply one operation on day `today`. -/
def applyOp (today : String) (L : TradeLimiter) : LimiterOp → TradeLimiter
  | .record symbol side price quantity timestamp =>
      record_trade L today symbol side price quantity timestamp
  | .setPnl pnl => update_pnl L pnl

/-- Run a sequence of same-day operations. -/
def runOps (today : String) (L : TradeLimiter) (ops : List LimiterOp) :
    TradeLimiter :=
  ops.foldl (applyOp today) L

/-- The claimed shape of the first-trade flags: the head record (when any)
carries `true`, every later record `false`. -/
def firstFlagPattern : ℕ → List Bool
  | 0 => []
  | n + 1 => true :: List.replicate n false

/-- Invariant of a daily state on day `today` used to settle the implicit
limiter claim. -/
def limiterDayInv (today : String) (s : DailyTradingState) : Prop :=
  s.date = today ∧
  s.trades_today.map TradeRecord.is_first_trade =
    firstFlagPattern s.trades_today.length ∧
  s.first_trade_executed = decide (1 ≤ s.trades_today.length) ∧
  s.second_trade_executed = decide (2 ≤ s.trades_today.length)

/-! ### Concrete sample inputs used by witnesses and counterexamples -/

/-- A fixed market snapshot: BTC at 100 with a 97 to 103 24h range and no
optional indicators. -/
def sampleCtx : MarketContext :=
  { symbol := "BTC"
    current_price := 100
    high_24h := 103
    low_24h := 97
    price_change_24h_percent := 0
    sma_short := none
    sma_long := none
    rsi := none
    volume_24h := none
    position_entry_price := none
    account_balance := 1000
    hourly_data_summary := none
    high_12h := none
    low_12h := none
    high_48h := none
    low_48h := none }

/-- A degenerate snapshot with a negative current price and an inverted 24h
range, separating the two volatility conditions. -/
def negCtx : MarketContext :=
  { sampleCtx with current_price := -1, high_24h := 0, low_24h := 1 }

/-- A limiter that already holds two recorded trades for 2025-01-01. -/
def fullLimiter : TradeLimiter :=
  { state_file := "trade_state.json"
    max_trades_per_day := 2
    current_state :=
      { date := "2025-01-01"
        trades_today :=
          [{ timestamp := 1, symbol := "BTC", side := "BUY", price := 5,
             quantity := 1, is_first_trade := true },
           { timestamp := 2, symbol := "BTC", side := "SELL", price := 6,
             quantity := 1, is_first_trade := false }]
        first_trade_executed := true
        second_trade_executed := true
        daily_pnl := 0 } }

/-! ## Theorems -/

/-- Effect of `record_trade` on a state whose date is already today. -/
theorem record_trade_state (L : TradeLimiter) (today symbol side : String)
    (price quantity : ℚ) (timestamp : ℕ)
    (hd : L.current_state.date = today) :
    (record_trade L today symbol side price quantity timestamp).current_state =
      { date := L.current_state.date
        trades_today := L.current_state.trades_today ++
          [{ timestamp := timestamp, symbol := symbol, side := side,
             price := price, quantity := quantity,
             is_first_trade := L.current_state.trades_today.isEmpty }]
        first_trade_executed :=
          if L.current_state.trades_today.isEmpty then true
          else L.current_state.first_trade_executed
        second_trade_executed :=
          if L.current_state.trades_today.isEmpty then
            L.current_state.second_trade_executed
          else true
        daily_pnl := L.current_state.daily_pnl } := by
  subst hd
  simp [record_trade]

/-- `firstFlagPattern` grows by a `false` at the tail once non-empty. -/
theorem firstFlagPattern_snoc (n : ℕ) :
    firstFlagPattern (n + 1) ++ [false] = firstFlagPattern (n + 2) := by
  simp [firstFlagPattern, List.replicate_succ']

/-- Every same-day limiter operation preserves the daily invariant. -/
theorem applyOp_inv (today : String) (L : TradeLimiter) (op : LimiterOp)
    (h : limiterDayInv today L.current_state) :
    limiterDayInv today (applyOp today L op).current_state := by
  obtain ⟨hd, hmap, h1, h2⟩ := h
  cases op with
  | setPnl p => exact ⟨hd, hmap, h1, h2⟩
  | record symbol side price quantity timestamp =>
      show limiterDayInv today
        (record_trade L today symbol side price quantity timestamp).current_state
      rw [record_trade_state L today symbol side price quantity timestamp hd]
      rcases htr : L.current_state.trades_today with _ | ⟨a, as⟩
      · rw [htr] at hmap h1 h2
        simp at h1 h2
        refine ⟨hd, ?_, ?_, ?_⟩ <;> simp [htr, firstFlagPattern, h1, h2]
      · rw [htr] at hmap h1 h2
        simp at h1
        refine ⟨hd, ?_, ?_, ?_⟩
        · simp only [firstFlagPattern, List.map_cons, List.map_append,
            List.length_cons, List.length_append, List.map_nil,
            List.length_nil] at hmap ⊢
          injection hmap with ha has
          simp [htr, ha, has, List.replicate_succ']
        · simp [htr, h1]
        · simp [htr]

/-- Any same-day operation sequence preserves the daily invariant. -/
theorem runOps_inv (today : String) (ops : List LimiterOp) (L : TradeLimiter)
    (h : limiterDayInv today L.current_state) :
    limiterDayInv today (runOps today L ops).current_state := by
  induction ops generalizing L with
  | nil => exact h
  | cons op ops ih => exact ih _ (applyOp_inv today L op h)

/-- C1: starting from an empty daily state for today, `can_trade` allows a
first trade with 2 remaining; after one `record_trade` it allows a second
(not first) trade with 1 remaining; after a second it reports the daily
limit with 2 trades executed and tomorrow as the next trading day; and
whenever the stored date differs from the current date it allows a first
trade with 2 remaining without any explicit reset. -/
theorem c1_daily_limiter_cycle (file today tomorrow sym1 side1 sym2 side2 : String)
    (p1 q1 p2 q2 : ℚ) (t1 t2 : ℕ) :
    can_trade (mkLimiter file today) today tomorrow = .allowed true 2 ∧
    can_trade (record_trade (mkLimiter file today) today sym1 side1 p1 q1 t1)
      today tomorrow = .allowed false 1 ∧
    can_trade (record_trade (record_trade (mkLimiter file today) today
        sym1 side1 p1 q1 t1) today sym2 side2 p2 q2 t2) today tomorrow =
      .dailyLimitReached 2 tomorrow ∧
    (∀ (L : TradeLimiter) (d td : String), L.current_state.date ≠ d →
      can_trade L d td = .allowed true 2) := by
  refine ⟨?_, ?_, ?_, ?_⟩
  · simp [can_trade, mkLimiter, new_for_today]
  · simp [can_trade, record_trade, mkLimiter, new_for_today]
  · simp [can_trade, record_trade, mkLimiter, new_for_today]
  · intro L d td h
    simp [can_trade, h]

/-- Witness for C1 at concrete inputs: a fresh limiter for 2025-01-01 may
trade, and a limiter whose stored date is 2025-01-01 read on 2025-01-03
resets to a full allowance. -/
theorem c1_daily_limiter_cycle_witness :
    can_trade (mkLimiter "trade_state.json" "2025-01-01") "2025-01-01"
      "2025-01-02" = .allowed true 2 ∧
    can_trade fullLimiter "2025-01-03" "2025-01-04" = .allowed true 2 := by
  exact ⟨(c1_daily_limiter_cycle "trade_state.json" "2025-01-01" "2025-01-02"
      "a" "b" "c" "d" 1 1 1 1 1 2).1,
    (c1_daily_limiter_cycle "trade_state.json" "2025-01-01" "2025-01-02"
      "a" "b" "c" "d" 1 1 1 1 1 2).2.2.2 fullLimiter "2025-01-03" "2025-01-04"
      (by decide)⟩

/-- C2: `record_trade` never rejects for exceeding the cap: on any same-day
state it appends the new record (first-trade flag from emptiness) and, when
the state already holds at least `max_trades_per_day` trades, the count goes
strictly above the cap.  The Rust return value is unconditionally `Ok(())`
(the model is total for that reason). -/
theorem c2_record_trade_no_cap (L : TradeLimiter) (today symbol side : String)
    (price quantity : ℚ) (timestamp : ℕ)
    (hdate : L.current_state.date = today) :
    (record_trade L today symbol side price quantity timestamp).current_state.trades_today =
      L.current_state.trades_today ++
        [{ timestamp := timestamp, symbol := symbol, side := side,
           price := price, quantity := quantity,
           is_first_trade := L.current_state.trades_today.isEmpty }] ∧
    (L.max_trades_per_day ≤ L.current_state.trades_today.length →
      L.max_trades_per_day <
        (record_trade L today symbol side price quantity
          timestamp).current_state.trades_today.length) := by
  rw [record_trade_state L today symbol side price quantity timestamp hdate]
  refine ⟨rfl, ?_⟩
  intro hcap
  simp only [List.length_append, List.length_singleton]
  omega

/-- Witness for C2: the limiter already at its 2-trade cap accepts a third
record, driving the count above the cap. -/
theorem c2_record_trade_no_cap_witness :
    fullLimiter.max_trades_per_day ≤
      fullLimiter.current_state.trades_today.length ∧
    fullLimiter.max_trades_per_day <
      (record_trade fullLimiter "2025-01-01" "ETH" "BUY" 7 1
        3).current_state.trades_today.length := by
  exact ⟨by decide,
    (c2_record_trade_no_cap fullLimiter "2025-01-01" "ETH" "BUY" 7 1 3
      (by decide)).2 (by decide)⟩

/-- C10: in every state reachable from a fresh daily state by same-day
`record_trade` and `update_pnl` calls, exactly the head record carries
`is_first_trade = true` (the `firstFlagPattern` shape), and the two executed
flags hold exactly when at least one, respectively two, trades are
recorded. -/
theorem c10_first_trade_invariant (file today : String) (ops : List LimiterOp) :
    (runOps today (mkLimiter file today) ops).current_state.trades_today.map
        TradeRecord.is_first_trade =
      firstFlagPattern
        (runOps today (mkLimiter file today) ops).current_state.trades_today.length ∧
    ((runOps today (mkLimiter file today) ops).current_state.first_trade_executed =
        true ↔
      1 ≤ (runOps today (mkLimiter file today) ops).current_state.trades_today.length) ∧
    ((runOps today (mkLimiter file today) ops).current_state.second_trade_executed =
        true ↔
      2 ≤ (runOps today (mkLimiter file today) ops).current_state.trades_today.length) := by
  obtain ⟨hd, hmap, h1, h2⟩ :=
    runOps_inv today ops (mkLimiter file today) ⟨rfl, rfl, rfl, rfl⟩
  refine ⟨hmap, ?_, ?_⟩
  · rw [h1]; simp
  · rw [h2]; simp

/-- A successful `parseDecimal` never yields a negative value: the scanned
strings carry no sign. -/
theorem parseDecimal_nonneg (s : List Char) (q : ℚ)
    (h : parseDecimal s = some q) : 0 ≤ q := by
  simp only [parseDecimal] at h
  split at h <;> split_ifs at h
  all_goals
    injection h with h2
    subst h2
    positivity

/-- A successful `extract_percentage` never yields a negative value. -/
theorem extract_percentage_nonneg (t lbl : List Char) (q : ℚ)
    (h : extract_percentage t lbl = some q) : 0 ≤ q := by
  simp only [extract_percentage] at h
  split at h
  · exact Option.noConfusion h
  · split_ifs at h
    exact parseDecimal_nonneg _ _ h

/-- C4: whenever the STOP_LOSS label (underscore or space variant) cannot
be extracted as a price, the parsed stop-loss is exactly
`current_price * 0.95`; an unextractable TAKE_PROFIT likewise defaults to
`current_price * 1.10`; every other unextractable optional price field
remains absent.  The required fields are total by type, so both defaults
leave them populated. -/
theorem c4_parser_defaulting (t : List Char) (ctx : MarketContext) :
    (extract_price t (str "STOP_LOSS") = none →
      extract_price t (str "STOP LOSS") = none →
      (parse_ai_response t ctx).stop_loss_price =
        ctx.current_price * (0.95 : ℚ)) ∧
    (extract_price t (str "TAKE_PROFIT") = none →
      extract_price t (str "TAKE PROFIT") = none →
      (parse_ai_response t ctx).take_profit_price =
        ctx.current_price * (1.10 : ℚ)) ∧
    (extract_price t (str "BUY_TARGET") = none →
      extract_price t (str "BUY TARGET") = none →
      (parse_ai_response t ctx).buy_target_price = none) ∧
    (extract_price t (str "SELL_TARGET") = none →
      extract_price t (str "SELL TARGET") = none →
      (parse_ai_response t ctx).sell_target_price = none) ∧
    (extract_price t (str "SUPPORT:") = none →
      (parse_ai_response t ctx).support = none) ∧
    (extract_price t (str "STRONG_SUPPORT") = none →
      extract_price t (str "STRONG SUPPORT") = none →
      (parse_ai_response t ctx).strong_support = none) ∧
    (extract_price t (str "RESISTANCE:") = none →
      (parse_ai_response t ctx).resistance = none) ∧
    (extract_price t (str "STRONG_RESISTANCE") = none →
      extract_price t (str "STRONG RESISTANCE") = none →
      (parse_ai_response t ctx).strong_resistance = none) ∧
    (extract_price t (str "PIVOT") = none →
      (parse_ai_response t ctx).pivot_point = none) := by
  refine ⟨?_, ?_, ?_, ?_, ?_, ?_, ?_, ?_, ?_⟩
  · intro h1 h2; simp [parse_ai_response, h1, h2]
  · intro h1 h2; simp [parse_ai_response, h1, h2]
  · intro h1 h2; simp [parse_ai_response, h1, h2]
  · intro h1 h2; simp [parse_ai_response, h1, h2]
  · intro h1; simp [parse_ai_response, h1]
  · intro h1 h2; simp [parse_ai_response, h1, h2]
  · intro h1; simp [parse_ai_response, h1]
  · intro h1 h2; simp [parse_ai_response, h1, h2]
  · intro h1; simp [parse_ai_response, h1]

/-- Witness for C4: an input with no labels at all takes both defaults and
leaves every optional price field absent. -/
theorem c4_parser_defaulting_witness :
    (parse_ai_response (str "no labels here") sampleCtx).stop_loss_price =
      sampleCtx.current_price * (0.95 : ℚ) ∧
    (parse_ai_response (str "no labels here") sampleCtx).take_profit_price =
      sampleCtx.current_price * (1.10 : ℚ) ∧
    (parse_ai_response (str "no labels here") sampleCtx).buy_target_price = none ∧
    (parse_ai_response (str "no labels here") sampleCtx).support = none ∧
    (parse_ai_response (str "no labels here") sampleCtx).pivot_point = none := by
  refine ⟨(c4_parser_defaulting (str "no labels here") sampleCtx).1
      (by decide) (by decide),
    (c4_parser_defaulting (str "no labels here") sampleCtx).2.1
      (by decide) (by decide),
    (c4_parser_defaulting (str "no labels here") sampleCtx).2.2.1
      (by decide) (by decide),
    (c4_parser_defaulting (str "no labels here") sampleCtx).2.2.2.2.1
      (by decide),
    (c4_parser_defaulting (str "no labels here") sampleCtx).2.2.2.2.2.2.2.2
      (by decide)⟩

/-- C5: recommendation classification follows the fixed priority order: a
strong-buy token anywhere in the upper-cased text yields StrongBuy (even
beside a "RECOMMENDATION: SELL" label), a strong-sell token in the absence
of strong-buy tokens yields StrongSell over the plain labels, and a text
matching none of the tokens parses to Hold. -/
theorem c5_recommendation_priority (t : List Char) (ctx : MarketContext) :
    ((containsSub (rustToUpper t) (str "STRONG_BUY") = true ∨
        containsSub (rustToUpper t) (str "STRONG BUY") = true) →
      (parse_ai_response t ctx).recommendation = .strongBuy) ∧
    (containsSub (rustToUpper t) (str "STRONG_BUY") = false →
      containsSub (rustToUpper t) (str "STRONG BUY") = false →
      (containsSub (rustToUpper t) (str "STRONG_SELL") = true ∨
        containsSub (rustToUpper t) (str "STRONG SELL") = true) →
      (parse_ai_response t ctx).recommendation = .strongSell) ∧
    (containsSub (rustToUpper t) (str "STRONG_BUY") = false →
      containsSub (rustToUpper t) (str "STRONG BUY") = false →
      containsSub (rustToUpper t) (str "STRONG_SELL") = false →
      containsSub (rustToUpper t) (str "STRONG SELL") = false →
      containsSub (rustToUpper t) (str "RECOMMENDATION: BUY") = false →
      containsSub (rustToUpper t) (str "RECOMMENDATION:BUY") = false →
      containsSub (rustToUpper t) (str "RECOMMENDATION: SELL") = false →
      containsSub (rustToUpper t) (str "RECOMMENDATION:SELL") = false →
      (parse_ai_response t ctx).recommendation = .hold) := by
  refine ⟨?_, ?_, ?_⟩
  · rintro (h | h) <;> simp [parse_ai_response, h]
  · intro h1 h2 h3
    rcases h3 with h3 | h3 <;> simp [parse_ai_response, h1, h2, h3]
  · intro h1 h2 h3 h4 h5 h6 h7 h8
    simp [parse_ai_response, h1, h2, h3, h4, h5, h6, h7, h8]

/-- C6 fails on the code: `str::find` takes the first occurrence wherever
it lies, so in a text containing "STRONG_SUPPORT: $100" and no standalone
"SUPPORT:" label the support field IS populated with 100 from inside the
longer label (and likewise "RESISTANCE:" inside "STRONG_RESISTANCE:"). -/
theorem c6_label_collision_counterexample :
    (parse_ai_response (str "STRONG_SUPPORT: $100") sampleCtx).support =
      some 100 ∧
    (parse_ai_response (str "STRONG_RESISTANCE: $120") sampleCtx).resistance =
      some 120 := by
  constructor <;> decide

/-- C6 amended: the shorter label's value is taken from the text's first
occurrence of "SUPPORT:" (resp. "RESISTANCE:"), which may lie inside the
longer "STRONG_" label; the collision is avoided only when a standalone
shorter label occurs earlier in the text, as in the AI protocol's field
order. -/
theorem c6_label_collision_amended :
    (parse_ai_response (str "SUPPORT: $90 STRONG_SUPPORT: $80")
      sampleCtx).support = some 90 ∧
    (parse_ai_response (str "SUPPORT: $90 STRONG_SUPPORT: $80")
      sampleCtx).strong_support = some 80 ∧
    (parse_ai_response (str "RESISTANCE: $110 STRONG_RESISTANCE: $120")
      sampleCtx).resistance = some 110 ∧
    (parse_ai_response (str "RESISTANCE: $110 STRONG_RESISTANCE: $120")
      sampleCtx).strong_resistance = some 120 ∧
    (parse_ai_response (str "STRONG_SUPPORT: $100") sampleCtx).strong_support =
      some 100 := by
  refine ⟨?_, ?_, ?_, ?_, ?_⟩ <;> decide

/-- Witness for C5 at concrete inputs: a strong-buy token beats an explicit
sell label, a strong-sell token beats an explicit buy label, and a tokenless
text parses to Hold. -/
theorem c5_recommendation_priority_witness :
    (parse_ai_response (str "STRONG_BUY RECOMMENDATION: SELL")
      sampleCtx).recommendation = .strongBuy ∧
    (parse_ai_response (str "STRONG SELL but RECOMMENDATION: BUY")
      sampleCtx).recommendation = .strongSell ∧
    (parse_ai_response (str "nothing to see") sampleCtx).recommendation =
      .hold := by
  exact ⟨(c5_recommendation_priority (str "STRONG_BUY RECOMMENDATION: SELL")
      sampleCtx).1 (Or.inl (by decide)),
    (c5_recommendation_priority (str "STRONG SELL but RECOMMENDATION: BUY")
      sampleCtx).2.1 (by decide) (by decide) (Or.inr (by decide)),
    (c5_recommendation_priority (str "nothing to see") sampleCtx).2.2
      (by decide) (by decide) (by decide) (by decide) (by decide) (by decide)
      (by decide) (by decide)⟩

/-- C7 fails on the code at the range boundaries: at rsi = 60 the source's
`rsi > 60` comparison contributes 0 where the claim's "60 ≤ rsi ≤ 70"
range demands −1, and at rsi = 39.5 the source's `rsi < 40` contributes +1
where the claim's "30 ≤ rsi ≤ 39" range demands 0. -/
theorem c7_rsi_scoring_counterexample :
    rsi_score (some 60) ≠ rsiContribClaim 60 ∧
    rsi_score (some (39.5 : ℚ)) ≠ rsiContribClaim (39.5 : ℚ) := by
  constructor <;> norm_num [rsi_score, rsiContribClaim]

/-- C7 amended: the RSI contribution is +2 below 30, +1 on `30 ≤ rsi < 40`,
−2 above 70, −1 on `60 < rsi ≤ 70`, else 0; and the RSI factor counts one
exactly when rsi is present. -/
theorem c7_rsi_scoring_amended (r : ℚ) :
    rsi_score (some r) = rsiContribAmended r ∧
    rsi_score none = 0 ∧
    rsi_factor (some r) = 1 ∧
    rsi_factor none = 0 := by
  refine ⟨?_, rfl, rfl, rfl⟩
  simp only [rsi_score, rsiContribAmended, gt_iff_lt]
  rcases lt_or_le r 30 with h30 | h30
  · rw [if_pos h30, if_pos h30]
  · have n30 : ¬ r < 30 := not_lt.mpr h30
    rw [if_neg n30, if_neg n30]
    rcases lt_or_le r 40 with h40 | h40
    · rw [if_pos h40, if_pos ⟨h30, h40⟩]
    · have n40 : ¬ r < 40 := not_lt.mpr h40
      have nc1 : ¬ (30 ≤ r ∧ r < 40) := fun hc => n40 hc.2
      rw [if_neg n40, if_neg nc1]
      rcases lt_or_le 70 r with h70 | h70
      · rw [if_pos h70, if_pos h70]
      · have n70 : ¬ (70 : ℚ) < r := not_lt.mpr h70
        rw [if_neg n70, if_neg n70]
        rcases lt_or_le 60 r with h60 | h60
        · rw [if_pos h60, if_pos ⟨h60, h70⟩]
        · have n60 : ¬ (60 : ℚ) < r := not_lt.mpr h60
          have nc2 : ¬ (60 < r ∧ r ≤ 70) := fun hc => n60 hc.1
          rw [if_neg n60, if_neg nc2]

/-- C8 fails on the code: upper-casing U+0149 lengthens the string (2 bytes
become 3), so on the input U+0149 followed by "STOP_LOSS" the byte index
found in the upper-cased copy plus the label length is 12, past the end of
the 11-byte original, and the Rust slice `&text[pos + label.len()..]`
panics.  On well-aligned input the same model extracts the price. -/
theorem c8_parser_panics_on_upper_length_change :
    extract_price_bytes (Char.ofNat 0x0149 :: str "STOP_LOSS")
      (str "STOP_LOSS") = none ∧
    extract_price_bytes (str "STOP_LOSS: $42") (str "STOP_LOSS") =
      some (some 42) := by
  constructor <;> decide

/-- C9 fails on the code: the parser does not clamp the confidence, so the
text "CONFIDENCE: 250" parses to a confidence of 250, outside 0..100. -/
theorem c9_confidence_counterexample :
    ¬ (parse_ai_response (str "CONFIDENCE: 250") sampleCtx).confidence ≤
      100 := by
  decide

/-- C9 amended: the parsed confidence is never negative (the scanner keeps
only digits and decimal points) and defaults to 50 when the CONFIDENCE
label is absent or unparseable, but it is not bounded above by 100. -/
theorem c9_confidence_amended (t : List Char) (ctx : MarketContext) :
    0 ≤ (parse_ai_response t ctx).confidence ∧
    (extract_percentage t (str "CONFIDENCE") = none →
      (parse_ai_response t ctx).confidence = 50) := by
  have hc : (parse_ai_response t ctx).confidence =
      match extract_percentage t (str "CONFIDENCE") with
      | some v => v
      | none => 50 := rfl
  constructor
  · rcases h : extract_percentage t (str "CONFIDENCE") with _ | v
    · rw [hc, h]; norm_num
    · rw [hc, h]; exact extract_percentage_nonneg _ _ _ h
  · intro h
    rw [hc, h]

/-- Witness for C9's amended statement at a concrete input: an empty text
has no CONFIDENCE label and yields the non-negative default 50. -/
theorem c9_confidence_amended_witness :
    0 ≤ (parse_ai_response (str "") sampleCtx).confidence ∧
    (parse_ai_response (str "") sampleCtx).confidence = 50 :=
  ⟨(c9_confidence_amended (str "") sampleCtx).1,
   (c9_confidence_amended (str "") sampleCtx).2 (by decide)⟩

/-- Clamping as the source writes it (`.min(5).max(2)`) equals clamping as
the spec writes it (`clamp(x, min=2, max=5)`). -/
theorem minmax_clamp (x c : ℚ) :
    c * (1 - max (min x 5) 2 / 100) = c * (1 - clampQ 2 5 x / 100) := by
  rw [clampQ, min_comm, max_comm]

/-- Same for the doubled take-profit percentage. -/
theorem minmax_clamp_double (x c : ℚ) :
    c * (1 + max (min x 5) 2 * 2 / 100) = c * (1 + 2 * clampQ 2 5 x / 100) := by
  rw [clampQ, min_comm, max_comm]; ring

/-- C3 fails on the code at a degenerate snapshot: the source substitutes
the default volatility 3 whenever `current ≤ 0`, the claim's formula only
at `current = 0`; with current = −1 and an inverted 24h range 0..1 the two
stop-losses differ (−0.98 versus −0.95). -/
theorem c3_fallback_formulas_counterexample :
    (calculate_targets negCtx).stop_loss_price ≠
      (specFallbackClaim negCtx).stop_loss := by
  norm_num [calculate_targets, specFallbackClaim, clampQ, negCtx, sampleCtx,
    min_def, max_def]

/-- C3 amended: for every snapshot the fallback calculator's nine price
outputs equal the reference formulas of spec 4.2, with the volatility
default 3 applying whenever the current price is not positive (rather than
only at zero). -/
theorem c3_fallback_formulas_amended (ctx : MarketContext) :
    (calculate_targets ctx).pivot_point =
      some (specFallbackAmended ctx).pivot ∧
    (calculate_targets ctx).resistance =
      some (specFallbackAmended ctx).resistance ∧
    (calculate_targets ctx).strong_resistance =
      some (specFallbackAmended ctx).strong_resistance ∧
    (calculate_targets ctx).support =
      some (specFallbackAmended ctx).support ∧
    (calculate_targets ctx).strong_support =
      some (specFallbackAmended ctx).strong_support ∧
    (calculate_targets ctx).stop_loss_price =
      (specFallbackAmended ctx).stop_loss ∧
    (calculate_targets ctx).take_profit_price =
      (specFallbackAmended ctx).take_profit ∧
    (calculate_targets ctx).buy_target_price =
      some (specFallbackAmended ctx).buy_target ∧
    (calculate_targets ctx).sell_target_price =
      some (specFallbackAmended ctx).sell_target := by
  refine ⟨rfl, rfl, rfl, rfl, rfl, ?_, ?_, rfl, rfl⟩
  · exact minmax_clamp _ _
  · exact minmax_clamp_double _ _
